import Mathlib

/-!
Verification of the voicemail authentication session core
(`lib/auth.js` of node-voicemail-auth).

The development shallowly embeds the session finite-state machine built on
the machina library, the asynchronous lookup continuations, and the promise
facade (`init` / `setMailbox` / `authenticate`).

Modelling conventions, each traced to the source:

* The machina FSM instance is the record `Fsm`: current state, the session
  attributes (`context`, `mailbox`, `currentPrompt`), the hang-up
  subscription (a `channel.once('StasisEnd', ...)` listener, modelled as a
  boolean), machina's deferred-input queue (`deferUntilTransition` items),
  plus instrumentation (the ordered trace of `emit` calls, a log of
  `handle` invocations, a misuse counter for the `'*'` handler of `done`).
* Asynchronous work is explicit: an in-flight lookup (or the second,
  chained `.then` of `init`'s promise chain) is a pending `Task`; a
  scheduler step delivers it later. This mirrors that the `.then`
  continuations run on later microtasks.
* machina `transition` semantics are reproduced: a transition to the
  current state is a no-op; `_onEnter` of the target runs after the state
  is set; the deferred queue is replayed for the target state only if
  `_onEnter` did not itself transition away (machina's `targetReplayState`
  check), and replay re-invokes `handle` on the then-current state.
* The facade wraps the FSM: each call appends a `Waiter` (the transient
  listeners plus the Q deferred) and enqueues a `process.nextTick`
  dispatch.  An emission settles every still-pending waiter whose
  listeners match it (`AuthenticatorLoaded`/`Error` for loaded waiters,
  `Authenticated`/`Error` for authenticate waiters) and detaches that
  waiter's listeners, so a waiter settles at most once.
* JavaScript `undefined`/`null` arguments are `Option.none`; the DAL
  collaborator is an `Env` of pure resolution functions (a lookup promise
  resolves to the value these functions give). Backend rejections of the
  lookup promises (the `.catch` branches) are not modelled; no claim here
  depends on them.
-/

namespace VoicemailAuth

/-- A resolved account context (looked up by domain). -/
structure Context where
  domain : String
deriving DecidableEq, Repr

/-- A resolved mailbox: number, stored password, owning context. -/
structure Mailbox where
  number : String
  password : String
  context : Context
deriving DecidableEq, Repr

/-- The error kinds the module assigns to `err.name`. -/
inductive ErrName where
  | ContextNotFound
  | MailboxNotFound
  | InvalidPassword
  | ChannelHungup
deriving DecidableEq, Repr

/-- Events emitted by the state machine (`this.emit(...)` in auth.js). -/
inductive Ev where
  | Error (e : ErrName)
  | AuthenticatorLoaded (m : Mailbox)
  | Authenticated
deriving DecidableEq, Repr

/-- The machina states of the session. -/
inductive FsmState where
  | init
  | unknownMailbox
  | authenticating
  | done
deriving DecidableEq, Repr

/-- Inputs handled by the state machine (`state.handle(...)`).
`setMailbox` carries the raw facade argument, which may be
`undefined`/`null` (`none`); `init`'s mailbox number was normalized by the
facade and is a genuine string. -/
inductive Input where
  | init (domain : String) (mailboxNumber : String)
  | setMailbox (mailboxNumber : Option String)
  | authenticate (password : String)
deriving DecidableEq, Repr

/-- One machina `deferUntilTransition` queue item. -/
structure DeferredItem where
  untilState : FsmState
  input : Input
deriving DecidableEq, Repr

/-- Which sound set a prompt was created from. -/
inductive PromptSound where
  | password
  | invalidPassword
deriving DecidableEq, Repr

/-- A prompt handle (`dependencies.prompt.create(...)`), with whether
`stop()` has been called on it. -/
structure PromptHandle where
  sounds : PromptSound
  stopped : Bool
deriving DecidableEq, Repr

/-- A pending asynchronous continuation.
`initCtx` is the in-flight context lookup of the `init` handler;
`initMb` is the second `.then` of that same promise chain, holding the
value it will receive (`none` both when the mailbox lookup found nothing
and when the first handler short-circuited after `ContextNotFound`, since
it then returns `undefined` into the chain);
`setMb` is the in-flight mailbox lookup of the `setMailbox` handler,
with the context captured at call time. -/
inductive Task where
  | initCtx (domain : String) (mailboxNumber : String)
  | initMb (mb : Option Mailbox)
  | setMb (mailboxNumber : Option String) (ctx : Option Context)
deriving DecidableEq, Repr

/-- The lookup collaborators (`dependencies.dal`), as the values their
promises resolve to.  `mailboxGet` receives the possibly-`undefined`
number and context the code passes it. -/
structure Env where
  contextGet : String → Option Context
  mailboxGet : Option String → Option Context → Option Mailbox

/-- The machina FSM instance together with its pending async tasks and
instrumentation. -/
structure Fsm where
  state : FsmState
  context : Option Context
  mailbox : Option Mailbox
  hangupSubscribed : Bool
  currentPrompt : Option PromptHandle
  queue : List DeferredItem
  tasks : List Task
  emitted : List Ev
  handledLog : List (FsmState × Input)
  misuse : Nat
  crashed : Bool
deriving DecidableEq, Repr

/-- `this.emit(e)` (appends to the ordered emission trace). -/
def Fsm.emitEv (f : Fsm) (e : Ev) : Fsm :=
  { f with emitted := f.emitted ++ [e] }

/-- Schedule an async continuation (a promise `.then` yet to run). -/
def Fsm.pushTask (f : Fsm) (t : Task) : Fsm :=
  { f with tasks := f.tasks ++ [t] }

/-- `removeHangupHandler`: drops the `StasisEnd` listener. -/
def Fsm.removeHangupHandler (f : Fsm) : Fsm :=
  { f with hangupSubscribed := false }

/-- `if (this.currentPrompt) this.currentPrompt.stop()`. -/
def Fsm.stopPrompt (f : Fsm) : Fsm :=
  match f.currentPrompt with
  | some p => { f with currentPrompt := some { p with stopped := true } }
  | none => f

/-- One replayed queue item handled by `done`'s catch-all handler: it only
logs the misuse. -/
def Fsm.doneMisuseLog (f : Fsm) (d : DeferredItem) : Fsm :=
  { f with
    misuse := f.misuse + 1
    handledLog := f.handledLog ++ [(FsmState.done, d.input)] }

/-- machina `transition('done')`: no-op when already in `done`; otherwise
set the state, run `done`'s `_onEnter` (which removes the hang-up
handler), then replay deferred items targeted at `done` — each replay goes
through `handle`, which in `done` is the `'*'` misuse logger. -/
def Fsm.transitionToDone (f : Fsm) : Fsm :=
  if f.state = FsmState.done then f
  else
    let f := { f with state := FsmState.done }
    let f := f.removeHangupHandler
    let matched := f.queue.filter (fun d => d.untilState = FsmState.done)
    let f := { f with queue := f.queue.filter (fun d => d.untilState ≠ FsmState.done) }
    matched.foldl Fsm.doneMisuseLog f

/-- Dispatch an input to the current state's handler.
Every branch is the corresponding handler of `auth.js`:

* `init` state: `init` starts the context lookup; `setMailbox` and
  `authenticate` defer until `unknownMailbox` / `authenticating`.
* `unknownMailbox`: `setMailbox` starts the mailbox lookup against
  `this.context`; `authenticate` defers until `authenticating`.
* `authenticating`: `authenticate` stops any current prompt, then compares
  `this.mailbox.password` to the supplied password with strict equality;
  a match emits `Authenticated` and transitions to `done`; a mismatch
  emits an `InvalidPassword` error and starts (fire-and-forget) the
  invalid-password prompt, staying in `authenticating`. Reading
  `this.mailbox.password` with no mailbox set would throw in JS; `crashed`
  records that (unreachable in the runs below).
* `done`: the `'*'` handler, which only logs misuse.
* any other state/input pair has no handler: machina emits `nohandler`
  and nothing else happens. -/
def Fsm.handleCore (f : Fsm) (i : Input) : Fsm :=
  match f.state, i with
  | FsmState.init, Input.init d n => f.pushTask (Task.initCtx d n)
  | FsmState.init, Input.setMailbox _ =>
      { f with queue := f.queue ++ [⟨FsmState.unknownMailbox, i⟩] }
  | FsmState.init, Input.authenticate _ =>
      { f with queue := f.queue ++ [⟨FsmState.authenticating, i⟩] }
  | FsmState.unknownMailbox, Input.setMailbox n =>
      f.pushTask (Task.setMb n f.context)
  | FsmState.unknownMailbox, Input.authenticate _ =>
      { f with queue := f.queue ++ [⟨FsmState.authenticating, i⟩] }
  | FsmState.authenticating, Input.authenticate pw =>
      let f := f.stopPrompt
      match f.mailbox with
      | none => { f with crashed := true }
      | some m =>
          if m.password = pw then
            (f.emitEv Ev.Authenticated).transitionToDone
          else
            let f := f.emitEv (Ev.Error ErrName.InvalidPassword)
            { f with currentPrompt := some ⟨PromptSound.invalidPassword, false⟩ }
  | FsmState.done, _ => { f with misuse := f.misuse + 1 }
  | _, _ => f

/-- machina `handle`: log the invocation (the module traces every
handler), then run the current state's handler. -/
def Fsm.handle (f : Fsm) (i : Input) : Fsm :=
  Fsm.handleCore { f with handledLog := f.handledLog ++ [(f.state, i)] } i

/-- machina `transition('authenticating')`.  `_onEnter` either transitions
straight to `done` (skipAuth) — in which case machina's
`targetReplayState` check suppresses the replay of items deferred until
`authenticating` — or creates and plays the password prompt and then
replays the deferred `authenticate` inputs in arrival order through
`handle`. -/
def Fsm.transitionToAuthenticating (skipAuth : Bool) (f : Fsm) : Fsm :=
  if f.state = FsmState.authenticating then f
  else
    let f := { f with state := FsmState.authenticating }
    if skipAuth then f.transitionToDone
    else
      let f := { f with currentPrompt := some ⟨PromptSound.password, false⟩ }
      let matched := f.queue.filter (fun d => d.untilState = FsmState.authenticating)
      let f := { f with queue := f.queue.filter (fun d => d.untilState ≠ FsmState.authenticating) }
      matched.foldl (fun g d => g.handle d.input) f

/-- machina `transition('unknownMailbox')`: `_onEnter` only logs, then the
deferred `setMailbox` inputs are replayed in arrival order. -/
def Fsm.transitionToUnknownMailbox (f : Fsm) : Fsm :=
  if f.state = FsmState.unknownMailbox then f
  else
    let f := { f with state := FsmState.unknownMailbox }
    let matched := f.queue.filter (fun d => d.untilState = FsmState.unknownMailbox)
    let f := { f with queue := f.queue.filter (fun d => d.untilState ≠ FsmState.unknownMailbox) }
    matched.foldl (fun g d => g.handle d.input) f

/-- Deliver a pending asynchronous continuation, exactly as the promise
chains of `auth.js` run it.

`initCtx`: the first `.then` of `init`'s chain.  Context absent — emit
`ContextNotFound`, transition to `done`, and return `undefined` into the
chain, so the second `.then` is still pending (with `none`).  Context
present — store it and chain the mailbox lookup into the second `.then`.

`initMb`: the second `.then`.  `none` — emit `MailboxNotFound` and
transition to `unknownMailbox` (this runs even on the `ContextNotFound`
path, since that branch only `return`s out of the first handler).  A
mailbox — store it, emit `AuthenticatorLoaded`, transition to
`authenticating`.

`setMb`: the `.then` of `setMailbox`'s lookup.  `none` — emit
`MailboxNotFound`, no transition.  A mailbox — store it, emit
`AuthenticatorLoaded`, transition to `authenticating`. -/
def Fsm.runTask (env : Env) (skipAuth : Bool) (f : Fsm) : Task → Fsm
  | Task.initCtx d n =>
      match env.contextGet d with
      | none =>
          let f := f.emitEv (Ev.Error ErrName.ContextNotFound)
          let f := f.transitionToDone
          f.pushTask (Task.initMb none)
      | some ctx =>
          let f := { f with context := some ctx }
          f.pushTask (Task.initMb (env.mailboxGet (some n) (some ctx)))
  | Task.initMb mb =>
      match mb with
      | none =>
          let f := f.emitEv (Ev.Error ErrName.MailboxNotFound)
          f.transitionToUnknownMailbox
      | some m =>
          let f := { f with mailbox := some m }
          let f := f.emitEv (Ev.AuthenticatorLoaded m)
          f.transitionToAuthenticating skipAuth
  | Task.setMb n ctx =>
      match env.mailboxGet n ctx with
      | none => f.emitEv (Ev.Error ErrName.MailboxNotFound)
      | some m =>
          let f := { f with mailbox := some m }
          let f := f.emitEv (Ev.AuthenticatorLoaded m)
          f.transitionToAuthenticating skipAuth

/-- The `StasisEnd` handler firing: the `once` listener removes itself,
then `hangupHandler` emits a `ChannelHungup` error and transitions to
`done`. -/
def Fsm.hangupFire (f : Fsm) : Fsm :=
  let f := { f with hangupSubscribed := false }
  let f := f.emitEv (Ev.Error ErrName.ChannelHungup)
  f.transitionToDone

/-- The freshly constructed FSM: machina enters `init`, whose `_onEnter`
subscribes the hang-up handler. -/
def fsmStart : Fsm :=
  { state := FsmState.init
    context := none
    mailbox := none
    hangupSubscribed := true
    currentPrompt := none
    queue := []
    tasks := []
    emitted := []
    handledLog := []
    misuse := 0
    crashed := false }

/-! ## The facade (`createAuthenticator`) -/

/-- Which terminal events a facade call listens for: `init`/`setMailbox`
subscribe `AuthenticatorLoaded` + `Error`; `authenticate` subscribes
`Authenticated` + `Error`. -/
inductive WaiterKind where
  | loaded
  | authenticated
deriving DecidableEq, Repr

/-- The outcome a facade future settles with. -/
inductive Outcome where
  | resolvedMailbox (m : Mailbox)
  | resolvedUnit
  | rejected (e : ErrName)
deriving DecidableEq, Repr

/-- One facade call's transient listeners plus its Q deferred.
`status = none` while pending; the first matching event (or the skipAuth
short-circuit) settles it and detaches the listeners, so the status never
changes again. -/
structure Waiter where
  id : Nat
  kind : WaiterKind
  status : Option Outcome
deriving DecidableEq, Repr

/-- What a given emission does to a waiter of a given kind (`none` when
its listeners ignore the event). -/
def evOutcome (k : WaiterKind) (e : Ev) : Option Outcome :=
  match k, e with
  | _, Ev.Error err => some (Outcome.rejected err)
  | WaiterKind.loaded, Ev.AuthenticatorLoaded m => some (Outcome.resolvedMailbox m)
  | WaiterKind.authenticated, Ev.Authenticated => some Outcome.resolvedUnit
  | _, _ => none

/-- One emission reaching one waiter: nothing if its listeners were
already detached (it settled), otherwise the first matching event settles
it. -/
def applyEvFn (e : Ev) (w : Waiter) : Waiter :=
  match w.status with
  | some _ => w
  | none =>
      match evOutcome w.kind e with
      | some o => { w with status := some o }
      | none => w

/-- Deliver one emission to every waiter whose listeners are still
attached (EventEmitter calls every current listener synchronously; each
facade handler first detaches its own listeners, then settles its
deferred). -/
def applyEv (ws : List Waiter) (e : Ev) : List Waiter :=
  ws.map (applyEvFn e)

/-- Deliver a list of emissions in order. -/
def applyEvs (ws : List Waiter) (es : List Ev) : List Waiter :=
  es.foldl applyEv ws

/-- The skipAuth `onAuthenticated()` call: settle that call's own
deferred (a Q deferred ignores a second settlement, and the listeners were
detached on the first one). -/
def settleWaiter (ws : List Waiter) (id : Nat) (o : Outcome) : List Waiter :=
  ws.map (fun w =>
    if w.id = id ∧ w.status = none then { w with status := some o } else w)

/-- A pending `process.nextTick` callback of the facade: either a plain
`state.handle(...)` dispatch, or `authenticate`'s tick, which checks
`skipAuth` and either resolves its own deferred directly or dispatches. -/
inductive Dispatch where
  | input (i : Input)
  | auth (id : Nat) (password : String)
deriving DecidableEq, Repr

/-- The whole per-call system: the FSM, the facade waiters, the FIFO
`process.nextTick` queue, and the id for the next facade call. -/
structure Sys where
  fsm : Fsm
  waiters : List Waiter
  dispatches : List Dispatch
  nextId : Nat
deriving DecidableEq, Repr

/-- `auth.create(channel, skipAuth)`: a fresh FSM, no pending calls. -/
def sysStart : Sys :=
  { fsm := fsmStart, waiters := [], dispatches := [], nextId := 0 }

/-- Install an FSM result into the system, delivering the emissions the
step produced (those past the previous trace length) to the waiters. -/
def stepFsmOp (s : Sys) (f : Fsm) : Sys :=
  { s with
    fsm := f
    waiters := applyEvs s.waiters (f.emitted.drop s.fsm.emitted.length) }

/-- `mailboxNumber = mailboxNumber || ''` — JS truthiness on the possibly
absent string argument of `api.init`. -/
def jsOrEmpty (a : Option String) : String :=
  match a with
  | none => ""
  | some s => if s = "" then "" else s

/-- One atomic scheduler step.  `callInit` / `callSetMailbox` /
`callAuthenticate` are the synchronous part of a facade call (subscribe
listeners, create the deferred, enqueue the nextTick callback); note that
only `api.init` normalizes its mailbox-number argument, `api.setMailbox`
dispatches its argument unchanged.  `runDispatch` runs the oldest pending
nextTick callback.  `deliverTask` resolves the `i`-th pending
asynchronous continuation.  `hangup` is the channel firing `StasisEnd`
(a no-op once the single-fire listener is gone). -/
inductive Step where
  | callInit (domain : String) (mailboxNumber : Option String)
  | callSetMailbox (mailboxNumber : Option String)
  | callAuthenticate (password : String)
  | runDispatch
  | deliverTask (i : Nat)
  | hangup
deriving DecidableEq, Repr

/-- Apply one scheduler step. -/
def stepSys (env : Env) (skipAuth : Bool) (s : Sys) : Step → Sys
  | Step.callInit d a =>
      { s with
        waiters := s.waiters ++ [⟨s.nextId, WaiterKind.loaded, none⟩]
        dispatches := s.dispatches ++ [Dispatch.input (Input.init d (jsOrEmpty a))]
        nextId := s.nextId + 1 }
  | Step.callSetMailbox a =>
      { s with
        waiters := s.waiters ++ [⟨s.nextId, WaiterKind.loaded, none⟩]
        dispatches := s.dispatches ++ [Dispatch.input (Input.setMailbox a)]
        nextId := s.nextId + 1 }
  | Step.callAuthenticate pw =>
      { s with
        waiters := s.waiters ++ [⟨s.nextId, WaiterKind.authenticated, none⟩]
        dispatches := s.dispatches ++ [Dispatch.auth s.nextId pw]
        nextId := s.nextId + 1 }
  | Step.runDispatch =>
      match s.dispatches with
      | [] => s
      | d :: rest =>
          let s' := { s with dispatches := rest }
          match d with
          | Dispatch.input i => stepFsmOp s' (s'.fsm.handle i)
          | Dispatch.auth id pw =>
              if skipAuth then
                { s' with waiters := settleWaiter s'.waiters id Outcome.resolvedUnit }
              else stepFsmOp s' (s'.fsm.handle (Input.authenticate pw))
  | Step.deliverTask i =>
      match s.fsm.tasks[i]? with
      | none => s
      | some t =>
          let f0 := { s.fsm with tasks := s.fsm.tasks.eraseIdx i }
          stepFsmOp { s with fsm := f0 } (f0.runTask env skipAuth t)
  | Step.hangup =>
      if s.fsm.hangupSubscribed then stepFsmOp s s.fsm.hangupFire else s

/-- Run a list of scheduler steps from a given system. -/
def runFrom (env : Env) (skipAuth : Bool) (s : Sys) (steps : List Step) : Sys :=
  steps.foldl (stepSys env skipAuth) s

/-- Run a list of scheduler steps on a fresh session. -/
def runSteps (env : Env) (skipAuth : Bool) (steps : List Step) : Sys :=
  runFrom env skipAuth sysStart steps

/-! ## A concrete environment, mirroring the mock DAL of `test/tests.js`:
the empty domain resolves to no context, any other domain resolves; the
empty mailbox number resolves to no mailbox, any other string resolves to
a mailbox with password `mypassword`; an `undefined` number is not the
empty string, so it takes the found branch. -/

/-- The context the test domain resolves to. -/
def ctxA : Context := ⟨"mydomain.com"⟩

/-- The mailbox the test number resolves to. -/
def mbA : Mailbox := ⟨"1234", "mypassword", ctxA⟩

/-- The mock data-access layer of the test suite, as an `Env`. -/
def envTest : Env :=
  { contextGet := fun d => if d = "" then none else some ⟨d⟩
    mailboxGet := fun n _ =>
      match n with
      | none => some ⟨"undefined", "mypassword", ctxA⟩
      | some s => if s = "" then none else some ⟨s, "mypassword", ctxA⟩ }

/-- All waiters carrying this id have this status. -/
def waiterHas (s : Sys) (id : Nat) (st : Option Outcome) : Prop :=
  ∀ w ∈ s.waiters, w.id = id → w.status = st

instance (s : Sys) (id : Nat) (st : Option Outcome) :
    Decidable (waiterHas s id st) := by
  unfold waiterHas; infer_instance

/-- Waiter ids are all below the next fresh id (facade calls allocate
increasing ids). -/
def idsBounded (s : Sys) : Prop :=
  ∀ w ∈ s.waiters, w.id < s.nextId

instance (s : Sys) : Decidable (idsBounded s) := by
  unfold idsBounded; infer_instance

/-! ## Concrete scenarios over the test environment -/

/-- `init('', '1234')` on the test environment (the empty domain resolves
to no context), with both continuations of the promise chain delivered. -/
def sysCtxNotFound : Sys :=
  runSteps envTest false
    [Step.callInit "" (some "1234"), Step.runDispatch,
     Step.deliverTask 0, Step.deliverTask 0]

/-- `init('mydomain.com', '1234')` fully resolved: the session sits in
`authenticating` with the mailbox loaded and the password prompt playing. -/
def sysAuthReady : Sys :=
  runSteps envTest false
    [Step.callInit "mydomain.com" (some "1234"), Step.runDispatch,
     Step.deliverTask 0, Step.deliverTask 0]

/-- The same session after the channel hangs up while the password prompt
is active. -/
def sysHungupInAuth : Sys :=
  runFrom envTest false sysAuthReady [Step.hangup]

/-- `init('mydomain.com','1234')` whose context lookup resolved, then the
channel hung up, then the still-in-flight mailbox continuation resolved. -/
def sysStaleLookup : Sys :=
  runSteps envTest false
    [Step.callInit "mydomain.com" (some "1234"), Step.runDispatch,
     Step.deliverTask 0, Step.hangup, Step.deliverTask 0]

/-- A session authenticated to completion, then one more `setMailbox`
call issued against the spent session and dispatched. -/
def sysSpentPlusCall : Sys :=
  runSteps envTest false
    [Step.callInit "mydomain.com" (some "1234"), Step.runDispatch,
     Step.deliverTask 0, Step.deliverTask 0,
     Step.callAuthenticate "mypassword", Step.runDispatch,
     Step.callSetMailbox (some "1234"), Step.runDispatch]

/-- A full successful session on the test environment: `init` resolves
the mailbox, a wrong password is rejected, the right password is
accepted; every facade future settles exactly once. -/
def sysFullRun : Sys :=
  runFrom envTest false sysAuthReady
    [Step.callAuthenticate "notmypassword", Step.runDispatch,
     Step.callAuthenticate "mypassword", Step.runDispatch]

/-- `init('mydomain.com','')` on the test environment, held at
`unknownMailbox` with the context retained (the empty mailbox number does
not resolve). -/
def sysUnknownMb : Sys :=
  runSteps envTest false
    [Step.callInit "mydomain.com" (some ""), Step.runDispatch,
     Step.deliverTask 0, Step.deliverTask 0]

/-- The session of `sysAuthReady` with an `authenticate` call subscribed
but not yet dispatched: one pending facade future. -/
def sysAuthPending : Sys :=
  runFrom envTest false sysAuthReady [Step.callAuthenticate "mypassword"]

/-- `init('mydomain.com','1234')` whose context lookup resolved, then the
channel hung up; the mailbox continuation is still pending. -/
def sysHungupMidInit : Sys :=
  runSteps envTest false
    [Step.callInit "mydomain.com" (some "1234"), Step.runDispatch,
     Step.deliverTask 0, Step.hangup]

/-- The same with `init('mydomain.com','')`, so the pending continuation
holds no mailbox. -/
def sysHungupMidInitNoMb : Sys :=
  runSteps envTest false
    [Step.callInit "mydomain.com" (some ""), Step.runDispatch,
     Step.deliverTask 0, Step.hangup]

/-- `sysUnknownMb` with a `setMailbox('')` dispatched (its lookup in
flight) and an `authenticate` deferred: two pending facade futures. -/
def sysTwoPending : Sys :=
  runFrom envTest false sysUnknownMb
    [Step.callSetMailbox (some ""), Step.callAuthenticate "mypassword",
     Step.runDispatch, Step.runDispatch]

/-- An environment like the test one but with another stored password. -/
def envOther : Env :=
  { contextGet := fun d => if d = "" then none else some ⟨d⟩
    mailboxGet := fun n _ =>
      match n with
      | none => some ⟨"undefined", "otherpassword", ctxA⟩
      | some t => if t = "" then none else some ⟨t, "otherpassword", ctxA⟩ }

/-- A spent session: terminal state, no in-flight lookup continuation, no
hang-up subscription.  From such a session nothing can ever emit, so no
pending facade future can ever settle. -/
def Inert (s : Sys) : Prop :=
  s.fsm.state = FsmState.done ∧ s.fsm.tasks = [] ∧ s.fsm.hangupSubscribed = false

/-- A facade future of this concrete session never settles, whatever the
scheduler does afterwards. -/
def neverSettles (s : Sys) (id : Nat) : Prop :=
  ∀ steps : List Step, waiterHas (runFrom envTest false s steps) id none

/-! ## Basic lemmas about the embedding -/

@[simp] theorem jsOrEmpty_none : jsOrEmpty none = "" := rfl

@[simp] theorem jsOrEmpty_some (s : String) : jsOrEmpty (some s) = s := by
  unfold jsOrEmpty
  split <;> simp_all

theorem evOutcome_error (k : WaiterKind) (e : ErrName) :
    evOutcome k (Ev.Error e) = some (Outcome.rejected e) := by
  cases k <;> rfl

@[simp] theorem applyEvFn_id (e : Ev) (w : Waiter) : (applyEvFn e w).id = w.id := by
  unfold applyEvFn
  split
  · rfl
  · split <;> rfl

theorem applyEvFn_settled (e : Ev) (w : Waiter) (o : Outcome)
    (h : w.status = some o) : applyEvFn e w = w := by
  unfold applyEvFn
  rw [h]

theorem applyEvFn_pending_error (err : ErrName) (w : Waiter)
    (h : w.status = none) :
    applyEvFn (Ev.Error err) w = { w with status := some (Outcome.rejected err) } := by
  unfold applyEvFn
  rw [h, evOutcome_error]

theorem applyEv_keeps_settled {ws : List Waiter} {e : Ev} {id : Nat} {o : Outcome}
    (h : ∀ w ∈ ws, w.id = id → w.status = some o) :
    ∀ w ∈ applyEv ws e, w.id = id → w.status = some o := by
  intro w' hw' hid
  obtain ⟨w, hw, rfl⟩ := List.mem_map.1 hw'
  rw [applyEvFn_id] at hid
  rw [applyEvFn_settled e w o (h w hw hid)]
  exact h w hw hid

theorem applyEvs_keeps_settled {ws : List Waiter} {es : List Ev} {id : Nat} {o : Outcome}
    (h : ∀ w ∈ ws, w.id = id → w.status = some o) :
    ∀ w ∈ applyEvs ws es, w.id = id → w.status = some o := by
  induction es generalizing ws with
  | nil => exact h
  | cons e es ih => exact ih (applyEv_keeps_settled h)

theorem applyEv_error_rejects {ws : List Waiter} {err : ErrName} {id : Nat}
    (h : ∀ w ∈ ws, w.id = id → w.status = none) :
    ∀ w ∈ applyEv ws (Ev.Error err), w.id = id →
      w.status = some (Outcome.rejected err) := by
  intro w' hw' hid
  obtain ⟨w, hw, rfl⟩ := List.mem_map.1 hw'
  rw [applyEvFn_id] at hid
  rw [applyEvFn_pending_error err w (h w hw hid)]

theorem applyEv_ids {ws : List Waiter} {e : Ev} :
    ∀ w ∈ applyEv ws e, ∃ w0 ∈ ws, w.id = w0.id := by
  intro w' hw'
  obtain ⟨w, hw, rfl⟩ := List.mem_map.1 hw'
  exact ⟨w, hw, applyEvFn_id e w⟩

theorem applyEvs_ids {ws : List Waiter} {es : List Ev} :
    ∀ w ∈ applyEvs ws es, ∃ w0 ∈ ws, w.id = w0.id := by
  induction es generalizing ws with
  | nil => exact fun w hw => ⟨w, hw, rfl⟩
  | cons e es ih =>
      intro w hw
      obtain ⟨w1, hw1, h1⟩ := ih w hw
      obtain ⟨w0, hw0, h0⟩ := applyEv_ids w1 hw1
      exact ⟨w0, hw0, h1.trans h0⟩

theorem settleWaiter_keeps_settled {ws : List Waiter} {id' : Nat} {o' : Outcome}
    {id : Nat} {o : Outcome}
    (h : ∀ w ∈ ws, w.id = id → w.status = some o) :
    ∀ w ∈ settleWaiter ws id' o', w.id = id → w.status = some o := by
  intro w' hw' hid
  obtain ⟨w, hw, rfl⟩ := List.mem_map.1 hw'
  by_cases hc : w.id = id' ∧ w.status = none
  · rw [if_pos hc] at hid
    have hs := h w hw hid
    rw [hc.2] at hs
    cases hs
  · rw [if_neg hc] at hid ⊢
    exact h w hw hid

theorem settleWaiter_ids {ws : List Waiter} {id' : Nat} {o' : Outcome} :
    ∀ w ∈ settleWaiter ws id' o', ∃ w0 ∈ ws, w.id = w0.id := by
  intro w' hw'
  obtain ⟨w, hw, rfl⟩ := List.mem_map.1 hw'
  refine ⟨w, hw, ?_⟩
  by_cases hc : w.id = id' ∧ w.status = none
  · rw [if_pos hc]
  · rw [if_neg hc]

/-! ### Field lemmas for `transitionToDone`, `handle` in `done`, and
`hangupFire` -/

theorem doneFold_state (l : List DeferredItem) (f : Fsm) :
    (l.foldl Fsm.doneMisuseLog f).state = f.state := by
  induction l generalizing f with
  | nil => rfl
  | cons d l ih => rw [List.foldl_cons, ih]; rfl

theorem doneFold_emitted (l : List DeferredItem) (f : Fsm) :
    (l.foldl Fsm.doneMisuseLog f).emitted = f.emitted := by
  induction l generalizing f with
  | nil => rfl
  | cons d l ih => rw [List.foldl_cons, ih]; rfl

theorem doneFold_currentPrompt (l : List DeferredItem) (f : Fsm) :
    (l.foldl Fsm.doneMisuseLog f).currentPrompt = f.currentPrompt := by
  induction l generalizing f with
  | nil => rfl
  | cons d l ih => rw [List.foldl_cons, ih]; rfl

theorem doneFold_tasks (l : List DeferredItem) (f : Fsm) :
    (l.foldl Fsm.doneMisuseLog f).tasks = f.tasks := by
  induction l generalizing f with
  | nil => rfl
  | cons d l ih => rw [List.foldl_cons, ih]; rfl

theorem doneFold_hangupSubscribed (l : List DeferredItem) (f : Fsm) :
    (l.foldl Fsm.doneMisuseLog f).hangupSubscribed = f.hangupSubscribed := by
  induction l generalizing f with
  | nil => rfl
  | cons d l ih => rw [List.foldl_cons, ih]; rfl

theorem doneFold_mailbox (l : List DeferredItem) (f : Fsm) :
    (l.foldl Fsm.doneMisuseLog f).mailbox = f.mailbox := by
  induction l generalizing f with
  | nil => rfl
  | cons d l ih => rw [List.foldl_cons, ih]; rfl

theorem doneFold_context (l : List DeferredItem) (f : Fsm) :
    (l.foldl Fsm.doneMisuseLog f).context = f.context := by
  induction l generalizing f with
  | nil => rfl
  | cons d l ih => rw [List.foldl_cons, ih]; rfl

theorem transitionToDone_state (f : Fsm) :
    f.transitionToDone.state = FsmState.done := by
  unfold Fsm.transitionToDone
  split
  · assumption
  · rw [doneFold_state]
    rfl

theorem transitionToDone_emitted (f : Fsm) :
    f.transitionToDone.emitted = f.emitted := by
  unfold Fsm.transitionToDone
  split
  · rfl
  · rw [doneFold_emitted]
    rfl

theorem transitionToDone_currentPrompt (f : Fsm) :
    f.transitionToDone.currentPrompt = f.currentPrompt := by
  unfold Fsm.transitionToDone
  split
  · rfl
  · rw [doneFold_currentPrompt]
    rfl

theorem transitionToDone_tasks (f : Fsm) :
    f.transitionToDone.tasks = f.tasks := by
  unfold Fsm.transitionToDone
  split
  · rfl
  · rw [doneFold_tasks]
    rfl

theorem transitionToDone_mailbox (f : Fsm) :
    f.transitionToDone.mailbox = f.mailbox := by
  unfold Fsm.transitionToDone
  split
  · rfl
  · rw [doneFold_mailbox]
    rfl

theorem transitionToDone_context (f : Fsm) :
    f.transitionToDone.context = f.context := by
  unfold Fsm.transitionToDone
  split
  · rfl
  · rw [doneFold_context]
    rfl

theorem transitionToDone_hangup_false (f : Fsm) (h : f.hangupSubscribed = false) :
    f.transitionToDone.hangupSubscribed = false := by
  unfold Fsm.transitionToDone
  split
  · exact h
  · rw [doneFold_hangupSubscribed]; rfl

theorem handleCore_done (f : Fsm) (i : Input) (h : f.state = FsmState.done) :
    f.handleCore i = { f with misuse := f.misuse + 1 } := by
  cases i <;> simp [Fsm.handleCore, h]

theorem handle_done (f : Fsm) (i : Input) (h : f.state = FsmState.done) :
    f.handle i =
      { f with
        handledLog := f.handledLog ++ [(FsmState.done, i)]
        misuse := f.misuse + 1 } := by
  unfold Fsm.handle
  rw [handleCore_done _ i (by simpa using h), h]

theorem hangupFire_state (f : Fsm) : f.hangupFire.state = FsmState.done := by
  unfold Fsm.hangupFire
  rw [transitionToDone_state]

theorem hangupFire_emitted (f : Fsm) :
    f.hangupFire.emitted = f.emitted ++ [Ev.Error ErrName.ChannelHungup] := by
  unfold Fsm.hangupFire
  rw [transitionToDone_emitted]
  rfl

theorem hangupFire_currentPrompt (f : Fsm) :
    f.hangupFire.currentPrompt = f.currentPrompt := by
  unfold Fsm.hangupFire
  rw [transitionToDone_currentPrompt]
  rfl

theorem hangupFire_tasks (f : Fsm) : f.hangupFire.tasks = f.tasks := by
  unfold Fsm.hangupFire
  rw [transitionToDone_tasks]
  rfl

theorem hangupFire_hangup_false (f : Fsm) :
    f.hangupFire.hangupSubscribed = false := by
  unfold Fsm.hangupFire
  exact transitionToDone_hangup_false _ rfl

/-! ### Spent sessions never emit again -/

theorem inert_step (env : Env) (s : Sys) (st : Step) (h : Inert s) :
    Inert (stepSys env false s st) ∧
    (∀ id, waiterHas s id none → waiterHas (stepSys env false s st) id none) := by
  obtain ⟨h1, h2, h3⟩ := h
  cases st with
  | callInit d a =>
      refine ⟨⟨h1, h2, h3⟩, ?_⟩
      intro id hp w hw hid
      simp only [stepSys] at hw
      rcases List.mem_append.1 hw with hw | hw
      · exact hp w hw hid
      · rw [List.mem_singleton.1 hw]
  | callSetMailbox a =>
      refine ⟨⟨h1, h2, h3⟩, ?_⟩
      intro id hp w hw hid
      simp only [stepSys] at hw
      rcases List.mem_append.1 hw with hw | hw
      · exact hp w hw hid
      · rw [List.mem_singleton.1 hw]
  | callAuthenticate pw =>
      refine ⟨⟨h1, h2, h3⟩, ?_⟩
      intro id hp w hw hid
      simp only [stepSys] at hw
      rcases List.mem_append.1 hw with hw | hw
      · exact hp w hw hid
      · rw [List.mem_singleton.1 hw]
  | runDispatch =>
      rcases hd : s.dispatches with _ | ⟨d, rest⟩
      · simp only [stepSys, hd]
        exact ⟨⟨h1, h2, h3⟩, fun id hp => hp⟩
      · cases d with
        | input i =>
            simp only [stepSys, hd, stepFsmOp, handle_done _ i h1,
              List.drop_length, applyEvs, List.foldl_nil]
            exact ⟨⟨h1, h2, h3⟩, fun id hp => hp⟩
        | auth wid pw =>
            simp only [stepSys, hd, Bool.false_eq_true, if_false,
              stepFsmOp, handle_done _ (Input.authenticate pw) h1,
              List.drop_length, applyEvs, List.foldl_nil]
            exact ⟨⟨h1, h2, h3⟩, fun id hp => hp⟩
  | deliverTask i =>
      simp only [stepSys, h2, List.getElem?_nil]
      exact ⟨⟨h1, h2, h3⟩, fun id hp => hp⟩
  | hangup =>
      simp only [stepSys, h3, Bool.false_eq_true, if_false]
      exact ⟨⟨h1, h2, h3⟩, fun id hp => hp⟩

theorem inert_run (env : Env) (s : Sys) (steps : List Step) (h : Inert s) :
    Inert (runFrom env false s steps) ∧
    (∀ id, waiterHas s id none → waiterHas (runFrom env false s steps) id none) := by
  induction steps generalizing s with
  | nil => exact ⟨h, fun id hp => hp⟩
  | cons st steps ih =>
      obtain ⟨hi, hw⟩ := inert_step env s st h
      obtain ⟨hi2, hw2⟩ := ih _ hi
      exact ⟨hi2, fun id hp => hw2 id (hw id hp)⟩

/-! ### A settled facade future never changes outcome, and ids stay
bounded -/

theorem step_nextId_le (env : Env) (sk : Bool) (s : Sys) (st : Step) :
    s.nextId ≤ (stepSys env sk s st).nextId := by
  cases st with
  | callInit d a => exact Nat.le_succ _
  | callSetMailbox a => exact Nat.le_succ _
  | callAuthenticate pw => exact Nat.le_succ _
  | runDispatch =>
      rcases hd : s.dispatches with _ | ⟨d, rest⟩
      · simp [stepSys, hd]
      · cases d with
        | input i => simp [stepSys, hd, stepFsmOp]
        | auth wid pw =>
            by_cases hsk : sk = true
            · simp [stepSys, hd, hsk]
            · simp [stepSys, hd, Bool.of_not_eq_true hsk, stepFsmOp]
  | deliverTask i =>
      rcases ht : s.fsm.tasks[i]? with _ | t
      · simp [stepSys, ht]
      · simp [stepSys, ht, stepFsmOp]
  | hangup =>
      by_cases hsub : s.fsm.hangupSubscribed = true
      · simp [stepSys, hsub, stepFsmOp]
      · simp [stepSys, Bool.of_not_eq_true hsub]

theorem step_idsBounded (env : Env) (sk : Bool) (s : Sys) (st : Step)
    (h : idsBounded s) : idsBounded (stepSys env sk s st) := by
  cases st with
  | callInit d a =>
      intro w hw
      simp only [stepSys] at hw ⊢
      rcases List.mem_append.1 hw with hw | hw
      · exact Nat.lt_succ_of_lt (h w hw)
      · rw [List.mem_singleton.1 hw]; exact Nat.lt_succ_self _
  | callSetMailbox a =>
      intro w hw
      simp only [stepSys] at hw ⊢
      rcases List.mem_append.1 hw with hw | hw
      · exact Nat.lt_succ_of_lt (h w hw)
      · rw [List.mem_singleton.1 hw]; exact Nat.lt_succ_self _
  | callAuthenticate pw =>
      intro w hw
      simp only [stepSys] at hw ⊢
      rcases List.mem_append.1 hw with hw | hw
      · exact Nat.lt_succ_of_lt (h w hw)
      · rw [List.mem_singleton.1 hw]; exact Nat.lt_succ_self _
  | runDispatch =>
      rcases hd : s.dispatches with _ | ⟨d, rest⟩
      · simpa only [stepSys, hd] using h
      · cases d with
        | input i =>
            intro w hw
            simp only [stepSys, hd, stepFsmOp] at hw ⊢
            obtain ⟨w0, hw0, hid⟩ := applyEvs_ids w hw
            rw [hid]
            exact h w0 hw0
        | auth wid pw =>
            by_cases hsk : sk = true
            · subst hsk
              intro w hw
              simp only [stepSys, hd, if_true] at hw ⊢
              obtain ⟨w0, hw0, hid⟩ := settleWaiter_ids w hw
              rw [hid]
              exact h w0 hw0
            · intro w hw
              simp only [stepSys, hd, Bool.of_not_eq_true hsk,
                Bool.false_eq_true, if_false, stepFsmOp] at hw ⊢
              obtain ⟨w0, hw0, hid⟩ := applyEvs_ids w hw
              rw [hid]
              exact h w0 hw0
  | deliverTask i =>
      rcases ht : s.fsm.tasks[i]? with _ | t
      · simpa only [stepSys, ht] using h
      · intro w hw
        simp only [stepSys, ht, stepFsmOp] at hw ⊢
        obtain ⟨w0, hw0, hid⟩ := applyEvs_ids w hw
        rw [hid]
        exact h w0 hw0
  | hangup =>
      by_cases hsub : s.fsm.hangupSubscribed = true
      · intro w hw
        simp only [stepSys, hsub, if_true, stepFsmOp] at hw ⊢
        obtain ⟨w0, hw0, hid⟩ := applyEvs_ids w hw
        rw [hid]
        exact h w0 hw0
      · simpa only [stepSys, Bool.of_not_eq_true hsub, Bool.false_eq_true,
          if_false] using h

theorem step_keeps_settled (env : Env) (sk : Bool) (s : Sys) (st : Step)
    (id : Nat) (o : Outcome) (_hb : idsBounded s) (hid : id < s.nextId)
    (h : waiterHas s id (some o)) :
    waiterHas (stepSys env sk s st) id (some o) := by
  cases st with
  | callInit d a =>
      intro w hw hwid
      simp only [stepSys] at hw
      rcases List.mem_append.1 hw with hw | hw
      · exact h w hw hwid
      · rw [List.mem_singleton.1 hw] at hwid
        exact absurd hwid (Nat.ne_of_gt hid)
  | callSetMailbox a =>
      intro w hw hwid
      simp only [stepSys] at hw
      rcases List.mem_append.1 hw with hw | hw
      · exact h w hw hwid
      · rw [List.mem_singleton.1 hw] at hwid
        exact absurd hwid (Nat.ne_of_gt hid)
  | callAuthenticate pw =>
      intro w hw hwid
      simp only [stepSys] at hw
      rcases List.mem_append.1 hw with hw | hw
      · exact h w hw hwid
      · rw [List.mem_singleton.1 hw] at hwid
        exact absurd hwid (Nat.ne_of_gt hid)
  | runDispatch =>
      rcases hd : s.dispatches with _ | ⟨d, rest⟩
      · simpa only [stepSys, hd] using h
      · cases d with
        | input i =>
            intro w hw hwid
            simp only [stepSys, hd, stepFsmOp] at hw
            exact applyEvs_keeps_settled h w hw hwid
        | auth wid pw =>
            by_cases hsk : sk = true
            · subst hsk
              intro w hw hwid
              simp only [stepSys, hd, if_true] at hw
              exact settleWaiter_keeps_settled h w hw hwid
            · intro w hw hwid
              simp only [stepSys, hd, Bool.of_not_eq_true hsk,
                Bool.false_eq_true, if_false, stepFsmOp] at hw
              exact applyEvs_keeps_settled h w hw hwid
  | deliverTask i =>
      rcases ht : s.fsm.tasks[i]? with _ | t
      · simpa only [stepSys, ht] using h
      · intro w hw hwid
        simp only [stepSys, ht, stepFsmOp] at hw
        exact applyEvs_keeps_settled h w hw hwid
  | hangup =>
      by_cases hsub : s.fsm.hangupSubscribed = true
      · intro w hw hwid
        simp only [stepSys, hsub, if_true, stepFsmOp] at hw
        exact applyEvs_keeps_settled h w hw hwid
      · simpa only [stepSys, Bool.of_not_eq_true hsub, Bool.false_eq_true,
          if_false] using h

theorem run_keeps_settled (env : Env) (sk : Bool) (s : Sys)
    (steps : List Step) (id : Nat) (o : Outcome)
    (hb : idsBounded s) (hid : id < s.nextId)
    (h : waiterHas s id (some o)) :
    waiterHas (runFrom env sk s steps) id (some o) := by
  induction steps generalizing s with
  | nil => exact h
  | cons st steps ih =>
      exact ih _ (step_idsBounded env sk s st hb)
        (Nat.lt_of_lt_of_le hid (step_nextId_le env sk s st))
        (step_keeps_settled env sk s st id o hb hid h)

/-- Claim C2 (code_bug evidence): on `init` with an unresolvable domain
the facade future is rejected with `ContextNotFound` — but the same
request's promise chain then runs its second `.then` on the `undefined`
it got back, emits a second, spurious `MailboxNotFound` error, and
transitions the supposedly terminal session from `done` to
`unknownMailbox`. -/
theorem init_context_not_found_rejects_then_resurrects :
    sysCtxNotFound.waiters
      = [⟨0, WaiterKind.loaded, some (Outcome.rejected ErrName.ContextNotFound)⟩] ∧
    sysCtxNotFound.fsm.emitted
      = [Ev.Error ErrName.ContextNotFound, Ev.Error ErrName.MailboxNotFound] ∧
    sysCtxNotFound.fsm.state = FsmState.unknownMailbox := by
  decide

/-- Claim C3 (counterexample): the channel hangs up while the password
prompt is active; the session does reach `done` and the pending
`authenticate`-less session has no pending waiter, but the active prompt
is left playing — it is never stopped — refuting the claim that any
active prompt is released. -/
theorem hangup_leaves_prompt_playing :
    sysHungupInAuth.fsm.state = FsmState.done ∧
    sysHungupInAuth.fsm.hangupSubscribed = false ∧
    sysHungupInAuth.fsm.currentPrompt
      = some ⟨PromptSound.password, false⟩ := by
  decide

/-- Claim C4 (counterexample): the mailbox continuation of an `init`
issued before hang-up is delivered after the session reached `done`; it
does not check the session state, emits `AuthenticatorLoaded` after the
`ChannelHungup` error, and moves the session out of `done` into
`authenticating`. -/
theorem stale_lookup_resurrects_session :
    sysStaleLookup.fsm.state = FsmState.authenticating ∧
    sysStaleLookup.fsm.emitted
      = [Ev.Error ErrName.ChannelHungup, Ev.AuthenticatorLoaded mbA] ∧
    sysStaleLookup.waiters
      = [⟨0, WaiterKind.loaded, some (Outcome.rejected ErrName.ChannelHungup)⟩] := by
  decide

/-- Unfolding lemma: running a step list is stepping once and running the
rest. -/
theorem runFrom_cons (env : Env) (sk : Bool) (s : Sys) (st : Step)
    (steps : List Step) :
    runFrom env sk s (st :: steps) = runFrom env sk (stepSys env sk s st) steps := rfl

theorem runFrom_nil (env : Env) (sk : Bool) (s : Sys) :
    runFrom env sk s [] = s := rfl

/-- Claim C1: with skip-authentication unset and the mailbox resolved, an
`authenticate` with a password different from the stored one rejects with
`InvalidPassword` and leaves the session in `authenticating` with its
mailbox unchanged; an `authenticate` with the exact stored password —
whether issued first or after the failed attempt — resolves with success
and moves the session to `done`. -/
theorem authenticate_exact_equality
    (env : Env) (d n pw : String) (c : Context) (m : Mailbox)
    (hc : env.contextGet d = some c)
    (hm : env.mailboxGet (some n) (some c) = some m)
    (hpw : pw ≠ m.password) :
    (runFrom env false
        (runSteps env false
          [Step.callInit d (some n), Step.runDispatch,
           Step.deliverTask 0, Step.deliverTask 0])
        [Step.callAuthenticate pw, Step.runDispatch]).fsm.state
        = FsmState.authenticating ∧
    (runFrom env false
        (runSteps env false
          [Step.callInit d (some n), Step.runDispatch,
           Step.deliverTask 0, Step.deliverTask 0])
        [Step.callAuthenticate pw, Step.runDispatch]).fsm.mailbox = some m ∧
    (runFrom env false
        (runSteps env false
          [Step.callInit d (some n), Step.runDispatch,
           Step.deliverTask 0, Step.deliverTask 0])
        [Step.callAuthenticate pw, Step.runDispatch]).waiters
      = [⟨0, WaiterKind.loaded, some (Outcome.resolvedMailbox m)⟩,
         ⟨1, WaiterKind.authenticated, some (Outcome.rejected ErrName.InvalidPassword)⟩] ∧
    (runFrom env false
        (runSteps env false
          [Step.callInit d (some n), Step.runDispatch,
           Step.deliverTask 0, Step.deliverTask 0])
        [Step.callAuthenticate pw, Step.runDispatch,
         Step.callAuthenticate m.password, Step.runDispatch]).fsm.state
        = FsmState.done ∧
    (runFrom env false
        (runSteps env false
          [Step.callInit d (some n), Step.runDispatch,
           Step.deliverTask 0, Step.deliverTask 0])
        [Step.callAuthenticate pw, Step.runDispatch,
         Step.callAuthenticate m.password, Step.runDispatch]).waiters
      = [⟨0, WaiterKind.loaded, some (Outcome.resolvedMailbox m)⟩,
         ⟨1, WaiterKind.authenticated, some (Outcome.rejected ErrName.InvalidPassword)⟩,
         ⟨2, WaiterKind.authenticated, some Outcome.resolvedUnit⟩] ∧
    (runFrom env false
        (runSteps env false
          [Step.callInit d (some n), Step.runDispatch,
           Step.deliverTask 0, Step.deliverTask 0])
        [Step.callAuthenticate m.password, Step.runDispatch]).fsm.state
        = FsmState.done ∧
    (runFrom env false
        (runSteps env false
          [Step.callInit d (some n), Step.runDispatch,
           Step.deliverTask 0, Step.deliverTask 0])
        [Step.callAuthenticate m.password, Step.runDispatch]).waiters
      = [⟨0, WaiterKind.loaded, some (Outcome.resolvedMailbox m)⟩,
         ⟨1, WaiterKind.authenticated, some Outcome.resolvedUnit⟩] := by
  simp [runSteps, runFrom, stepSys, stepFsmOp, Fsm.handle, Fsm.handleCore,
    Fsm.runTask, Fsm.pushTask, Fsm.emitEv, Fsm.stopPrompt,
    Fsm.transitionToDone, Fsm.transitionToAuthenticating,
    Fsm.transitionToUnknownMailbox, Fsm.removeHangupHandler,
    Fsm.doneMisuseLog, applyEvs, applyEv, applyEvFn, evOutcome,
    settleWaiter, sysStart, fsmStart, List.eraseIdx, hc, hm, Ne.symm hpw]

/-- Claim C5: when the domain resolves but the mailbox number does not,
`init` rejects with `MailboxNotFound` and the session holds at
`unknownMailbox` with the resolved context retained; a subsequent
`setMailbox` with a resolvable number resolves with that mailbox and
moves the session to `authenticating`, while one with an unresolvable
number rejects with `MailboxNotFound` and leaves the session in
`unknownMailbox`. -/
theorem init_mailbox_not_found_then_setMailbox
    (env : Env) (d n1 n2 n3 : String) (c : Context) (m : Mailbox)
    (hc : env.contextGet d = some c)
    (h1 : env.mailboxGet (some n1) (some c) = none)
    (h2 : env.mailboxGet (some n2) (some c) = some m)
    (h3 : env.mailboxGet (some n3) (some c) = none) :
    (runSteps env false
        [Step.callInit d (some n1), Step.runDispatch,
         Step.deliverTask 0, Step.deliverTask 0]).fsm.state
      = FsmState.unknownMailbox ∧
    (runSteps env false
        [Step.callInit d (some n1), Step.runDispatch,
         Step.deliverTask 0, Step.deliverTask 0]).fsm.context = some c ∧
    (runSteps env false
        [Step.callInit d (some n1), Step.runDispatch,
         Step.deliverTask 0, Step.deliverTask 0]).waiters
      = [⟨0, WaiterKind.loaded, some (Outcome.rejected ErrName.MailboxNotFound)⟩] ∧
    (runFrom env false
        (runSteps env false
          [Step.callInit d (some n1), Step.runDispatch,
           Step.deliverTask 0, Step.deliverTask 0])
        [Step.callSetMailbox (some n2), Step.runDispatch, Step.deliverTask 0]).fsm.state
      = FsmState.authenticating ∧
    (runFrom env false
        (runSteps env false
          [Step.callInit d (some n1), Step.runDispatch,
           Step.deliverTask 0, Step.deliverTask 0])
        [Step.callSetMailbox (some n2), Step.runDispatch, Step.deliverTask 0]).waiters
      = [⟨0, WaiterKind.loaded, some (Outcome.rejected ErrName.MailboxNotFound)⟩,
         ⟨1, WaiterKind.loaded, some (Outcome.resolvedMailbox m)⟩] ∧
    (runFrom env false
        (runSteps env false
          [Step.callInit d (some n1), Step.runDispatch,
           Step.deliverTask 0, Step.deliverTask 0])
        [Step.callSetMailbox (some n3), Step.runDispatch, Step.deliverTask 0]).fsm.state
      = FsmState.unknownMailbox ∧
    (runFrom env false
        (runSteps env false
          [Step.callInit d (some n1), Step.runDispatch,
           Step.deliverTask 0, Step.deliverTask 0])
        [Step.callSetMailbox (some n3), Step.runDispatch, Step.deliverTask 0]).waiters
      = [⟨0, WaiterKind.loaded, some (Outcome.rejected ErrName.MailboxNotFound)⟩,
         ⟨1, WaiterKind.loaded, some (Outcome.rejected ErrName.MailboxNotFound)⟩] := by
  simp [runSteps, runFrom, stepSys, stepFsmOp, Fsm.handle, Fsm.handleCore,
    Fsm.runTask, Fsm.pushTask, Fsm.emitEv, Fsm.stopPrompt,
    Fsm.transitionToDone, Fsm.transitionToAuthenticating,
    Fsm.transitionToUnknownMailbox, Fsm.removeHangupHandler,
    Fsm.doneMisuseLog, applyEvs, applyEv, applyEvFn, evOutcome,
    settleWaiter, sysStart, fsmStart, List.eraseIdx, hc, h1, h2, h3]

/-- Claim C7: a `setMailbox` or `authenticate` input delivered while the
machine is still in `init` is queued by `deferUntilTransition` and
replayed through `handle` — in arrival order, never dropped — exactly
when the machine enters `unknownMailbox` (for `setMailbox`) or
`authenticating` (for `authenticate`), on either path the session takes
(the `handle` log records the deferring invocation in `init` and the
replayed invocation in the target state; the deferred queue is left
empty). -/
theorem deferred_inputs_replayed_in_order
    (env : Env) (d n n1 n2 pw wrongPw : String) (c : Context) (m m2 : Mailbox)
    (hc : env.contextGet d = some c)
    (hm : env.mailboxGet (some n) (some c) = some m)
    (hmp : m.password = pw)
    (hn1 : env.mailboxGet (some n1) (some c) = none)
    (hn2 : env.mailboxGet (some n2) (some c) = some m2)
    (hwr : wrongPw ≠ pw) :
    (runSteps env false
        [Step.callInit d (some n), Step.callAuthenticate pw,
         Step.runDispatch, Step.runDispatch,
         Step.deliverTask 0, Step.deliverTask 0]).fsm.handledLog
      = [(FsmState.init, Input.init d n),
         (FsmState.init, Input.authenticate pw),
         (FsmState.authenticating, Input.authenticate pw)] ∧
    (runSteps env false
        [Step.callInit d (some n), Step.callAuthenticate pw,
         Step.runDispatch, Step.runDispatch,
         Step.deliverTask 0, Step.deliverTask 0]).fsm.queue = [] ∧
    (runSteps env false
        [Step.callInit d (some n), Step.callAuthenticate pw,
         Step.runDispatch, Step.runDispatch,
         Step.deliverTask 0, Step.deliverTask 0]).fsm.state = FsmState.done ∧
    (runSteps env false
        [Step.callInit d (some n), Step.callAuthenticate pw,
         Step.runDispatch, Step.runDispatch,
         Step.deliverTask 0, Step.deliverTask 0]).waiters
      = [⟨0, WaiterKind.loaded, some (Outcome.resolvedMailbox m)⟩,
         ⟨1, WaiterKind.authenticated, some Outcome.resolvedUnit⟩] ∧
    (runSteps env false
        [Step.callInit d (some n1), Step.callSetMailbox (some n2),
         Step.runDispatch, Step.runDispatch,
         Step.deliverTask 0, Step.deliverTask 0, Step.deliverTask 0]).fsm.handledLog
      = [(FsmState.init, Input.init d n1),
         (FsmState.init, Input.setMailbox (some n2)),
         (FsmState.unknownMailbox, Input.setMailbox (some n2))] ∧
    (runSteps env false
        [Step.callInit d (some n1), Step.callSetMailbox (some n2),
         Step.runDispatch, Step.runDispatch,
         Step.deliverTask 0, Step.deliverTask 0, Step.deliverTask 0]).fsm.state
      = FsmState.authenticating ∧
    (runSteps env false
        [Step.callInit d (some n1), Step.callSetMailbox (some n2),
         Step.runDispatch, Step.runDispatch,
         Step.deliverTask 0, Step.deliverTask 0, Step.deliverTask 0]).fsm.mailbox
      = some m2 ∧
    (runSteps env false
        [Step.callInit d (some n), Step.callAuthenticate wrongPw,
         Step.callAuthenticate pw, Step.runDispatch, Step.runDispatch,
         Step.runDispatch, Step.deliverTask 0, Step.deliverTask 0]).fsm.handledLog
      = [(FsmState.init, Input.init d n),
         (FsmState.init, Input.authenticate wrongPw),
         (FsmState.init, Input.authenticate pw),
         (FsmState.authenticating, Input.authenticate wrongPw),
         (FsmState.authenticating, Input.authenticate pw)] ∧
    (runSteps env false
        [Step.callInit d (some n), Step.callAuthenticate wrongPw,
         Step.callAuthenticate pw, Step.runDispatch, Step.runDispatch,
         Step.runDispatch, Step.deliverTask 0, Step.deliverTask 0]).fsm.state
      = FsmState.done ∧
    (runSteps env false
        [Step.callInit d (some n), Step.callAuthenticate wrongPw,
         Step.callAuthenticate pw, Step.runDispatch, Step.runDispatch,
         Step.runDispatch, Step.deliverTask 0, Step.deliverTask 0]).fsm.queue
      = [] := by
  simp [runSteps, runFrom, stepSys, stepFsmOp, Fsm.handle, Fsm.handleCore,
    Fsm.runTask, Fsm.pushTask, Fsm.emitEv, Fsm.stopPrompt,
    Fsm.transitionToDone, Fsm.transitionToAuthenticating,
    Fsm.transitionToUnknownMailbox, Fsm.removeHangupHandler,
    Fsm.doneMisuseLog, applyEvs, applyEv, applyEvFn, evOutcome,
    settleWaiter, sysStart, fsmStart, List.eraseIdx, hc, hm, hmp, hn1, hn2,
    Ne.symm hwr]

/-- Claim C3 (amended): a hang-up firing while the subscription is live
rejects every facade future pending at that moment with `ChannelHungup`,
transitions the session to `done` and releases the hang-up subscription —
but it does not touch the active prompt (the prompt handle is left
exactly as it was, still unstopped), and, once no lookup is in flight, a
facade future still (or newly) pending never settles at all — it is not
rejected with `ChannelHungup`. -/
theorem hangup_rejects_pending_requests
    (env : Env) (s : Sys)
    (hsub : s.fsm.hangupSubscribed = true) :
    (∀ id, waiterHas s id none →
        waiterHas (stepSys env false s Step.hangup) id
          (some (Outcome.rejected ErrName.ChannelHungup))) ∧
    (stepSys env false s Step.hangup).fsm.state = FsmState.done ∧
    (stepSys env false s Step.hangup).fsm.hangupSubscribed = false ∧
    (stepSys env false s Step.hangup).fsm.currentPrompt = s.fsm.currentPrompt ∧
    (s.fsm.tasks = [] → ∀ (steps : List Step) (id : Nat),
        waiterHas (stepSys env false s Step.hangup) id none →
        waiterHas (runFrom env false (stepSys env false s Step.hangup) steps) id none) := by
  have hstep : stepSys env false s Step.hangup = stepFsmOp s s.fsm.hangupFire := by
    simp [stepSys, hsub]
  refine ⟨?_, ?_, ?_, ?_, ?_⟩
  · intro id hp w hw hwid
    rw [hstep] at hw
    simp only [stepFsmOp, hangupFire_emitted, List.drop_left,
      applyEvs, List.foldl_cons, List.foldl_nil] at hw
    exact applyEv_error_rejects hp w hw hwid
  · rw [hstep]
    exact hangupFire_state s.fsm
  · rw [hstep]
    exact hangupFire_hangup_false s.fsm
  · rw [hstep]
    exact hangupFire_currentPrompt s.fsm
  · intro htasks steps id hp
    rw [hstep] at hp ⊢
    refine (inert_run env _ steps ⟨hangupFire_state s.fsm, ?_, hangupFire_hangup_false s.fsm⟩).2 id hp
    show s.fsm.hangupFire.tasks = []
    rw [hangupFire_tasks]
    exact htasks

/-- Claim C4 (amended): the lookup continuations perform no state check:
delivering the `init` chain's mailbox continuation to a session already
in `done` (with an empty deferred queue) emits its event unconditionally
and transitions the session out of `done` — to `authenticating` when the
mailbox was found, to `unknownMailbox` when it was not. -/
theorem stale_lookup_continuation_unchecked
    (env : Env) (s s2 : Sys) (m : Mailbox)
    (h1 : s.fsm.state = FsmState.done)
    (h2 : s.fsm.tasks = [Task.initMb (some m)])
    (hq : s.fsm.queue = [])
    (h1b : s2.fsm.state = FsmState.done)
    (h2b : s2.fsm.tasks = [Task.initMb none])
    (hqb : s2.fsm.queue = []) :
    (stepSys env false s (Step.deliverTask 0)).fsm.state
      = FsmState.authenticating ∧
    (stepSys env false s (Step.deliverTask 0)).fsm.emitted
      = s.fsm.emitted ++ [Ev.AuthenticatorLoaded m] ∧
    (stepSys env false s2 (Step.deliverTask 0)).fsm.state
      = FsmState.unknownMailbox ∧
    (stepSys env false s2 (Step.deliverTask 0)).fsm.emitted
      = s2.fsm.emitted ++ [Ev.Error ErrName.MailboxNotFound] := by
  refine ⟨?_, ?_, ?_, ?_⟩ <;>
    simp [stepSys, stepFsmOp, h1, h2, hq, h1b, h2b, hqb, List.eraseIdx,
      Fsm.runTask, Fsm.emitEv, Fsm.transitionToAuthenticating,
      Fsm.transitionToUnknownMailbox, Fsm.handle, Fsm.handleCore]

/-- Claim C6 (counterexample): a facade call issued against a session
that is already spent (in `done`, nothing in flight) produces no outcome
at all: the input is only logged by the `'*'` handler and the call's
future neither resolves nor rejects, whatever the scheduler does
afterwards. -/
theorem done_call_never_settles :
    sysSpentPlusCall.fsm.misuse = 1 ∧
    waiterHas sysSpentPlusCall 2 none ∧
    neverSettles sysSpentPlusCall 2 := by
  refine ⟨by decide, by decide, ?_⟩
  intro steps
  exact (inert_run envTest sysSpentPlusCall steps
    ⟨by decide, by decide, by decide⟩).2 2 (by decide)

/-- Claim C6 (amended): a facade future settles at most once — once
settled its outcome never changes; on a live session every call settles
(exactly once, as in the full run below), but a call handled on a spent
session (in `done`, no in-flight lookup, no subscription) never
settles. -/
theorem facade_at_most_once_spent_never :
    (∀ (env : Env) (sk : Bool) (s : Sys) (steps : List Step) (id : Nat) (o : Outcome),
        idsBounded s → id < s.nextId → waiterHas s id (some o) →
        waiterHas (runFrom env sk s steps) id (some o)) ∧
    (∀ (env : Env) (s : Sys) (steps : List Step) (id : Nat),
        Inert s → waiterHas s id none →
        waiterHas (runFrom env false s steps) id none) ∧
    sysFullRun.waiters
      = [⟨0, WaiterKind.loaded, some (Outcome.resolvedMailbox mbA)⟩,
         ⟨1, WaiterKind.authenticated, some (Outcome.rejected ErrName.InvalidPassword)⟩,
         ⟨2, WaiterKind.authenticated, some Outcome.resolvedUnit⟩] := by
  refine ⟨?_, ?_, by decide⟩
  · intro env sk s steps id o hb hid h
    exact run_keeps_settled env sk s steps id o hb hid h
  · intro env s steps id hin hp
    exact (inert_run env s steps hin).2 id hp

/-- Claim C8: with skip-authentication set, `authenticate` resolves
successfully for every password: the entire resulting system is identical
for any two passwords and any two lookup environments (so the stored
mailbox password is never consulted), the state machine is untouched, and
the call's future resolves. -/
theorem skip_auth_password_independent
    (env env2 : Env) (s : Sys) (pw pw2 : String)
    (hd : s.dispatches = []) (hb : idsBounded s) :
    runFrom env true s [Step.callAuthenticate pw, Step.runDispatch]
      = runFrom env2 true s [Step.callAuthenticate pw2, Step.runDispatch] ∧
    (runFrom env true s [Step.callAuthenticate pw, Step.runDispatch]).fsm = s.fsm ∧
    waiterHas (runFrom env true s [Step.callAuthenticate pw, Step.runDispatch])
      s.nextId (some Outcome.resolvedUnit) := by
  have hrun : ∀ (e : Env) (q : String),
      runFrom e true s [Step.callAuthenticate q, Step.runDispatch]
        = { s with
            waiters := settleWaiter
              (s.waiters ++ [⟨s.nextId, WaiterKind.authenticated, none⟩])
              s.nextId Outcome.resolvedUnit
            dispatches := []
            nextId := s.nextId + 1 } := by
    intro e q
    simp [runFrom, stepSys, hd]
  refine ⟨?_, ?_, ?_⟩
  · rw [hrun env pw, hrun env2 pw2]
  · rw [hrun env pw]
  · rw [hrun env pw]
    intro w hw hwid
    obtain ⟨w0, hw0, rfl⟩ := List.mem_map.1 hw
    rcases List.mem_append.1 hw0 with h0 | h0
    · by_cases hcond : w0.id = s.nextId ∧ w0.status = none
      · rw [if_pos hcond]
      · rw [if_neg hcond] at hwid
        exact absurd hwid (Nat.ne_of_lt (hb w0 h0))
    · obtain rfl := List.mem_singleton.1 h0
      rw [if_pos ⟨rfl, rfl⟩]

/-- Claim C9 (counterexample): `api.setMailbox` does not normalize its
argument: an absent (`undefined`/`null`) mailbox number is dispatched as
the raw absent value, not as the empty string — and the difference is
observable: against the test DAL (which tests `number === ''`),
`setMailbox(undefined)` resolves a mailbox while `setMailbox('')` rejects
with `MailboxNotFound`. -/
theorem setMailbox_not_normalized :
    (stepSys envTest false sysUnknownMb (Step.callSetMailbox none)).dispatches
      ≠ (stepSys envTest false sysUnknownMb
          (Step.callSetMailbox (some ""))).dispatches ∧
    (runFrom envTest false sysUnknownMb
        [Step.callSetMailbox none, Step.runDispatch, Step.deliverTask 0]).waiters
      = [⟨0, WaiterKind.loaded, some (Outcome.rejected ErrName.MailboxNotFound)⟩,
         ⟨1, WaiterKind.loaded,
          some (Outcome.resolvedMailbox ⟨"undefined", "mypassword", ctxA⟩)⟩] ∧
    (runFrom envTest false sysUnknownMb
        [Step.callSetMailbox (some ""), Step.runDispatch, Step.deliverTask 0]).waiters
      = [⟨0, WaiterKind.loaded, some (Outcome.rejected ErrName.MailboxNotFound)⟩,
         ⟨1, WaiterKind.loaded, some (Outcome.rejected ErrName.MailboxNotFound)⟩] := by
  refine ⟨by decide, by decide, by decide⟩

/-- Claim C9 (amended): only `api.init` applies the `mailboxNumber ||
''` normalization before dispatching — an absent or empty argument
becomes the empty string; `api.setMailbox` enqueues its argument
unchanged, whatever it is. -/
theorem init_normalizes_setMailbox_raw
    (env : Env) (sk : Bool) (s : Sys) (d : String) (a : Option String) :
    (stepSys env sk s (Step.callInit d none)).dispatches
      = s.dispatches ++ [Dispatch.input (Input.init d "")] ∧
    (stepSys env sk s (Step.callInit d (some ""))).dispatches
      = s.dispatches ++ [Dispatch.input (Input.init d "")] ∧
    (stepSys env sk s (Step.callSetMailbox a)).dispatches
      = s.dispatches ++ [Dispatch.input (Input.setMailbox a)] := by
  refine ⟨?_, ?_, ?_⟩ <;> simp [stepSys]

/-- Claim C10: all facade calls listen on the machine's single `Error`
event, so the one `Error` emission of a failing mailbox lookup rejects
every facade future still pending at that moment — whichever operation
each belongs to — with that same error. -/
theorem shared_error_rejects_all_pending
    (env : Env) (s : Sys) (n : Option String) (c : Option Context)
    (ht : s.fsm.tasks = [Task.setMb n c])
    (hm : env.mailboxGet n c = none) :
    ∀ id, waiterHas s id none →
      waiterHas (stepSys env false s (Step.deliverTask 0)) id
        (some (Outcome.rejected ErrName.MailboxNotFound)) := by
  have hstep : stepSys env false s (Step.deliverTask 0)
      = stepFsmOp { s with fsm := { s.fsm with tasks := [] } }
          (Fsm.emitEv { s.fsm with tasks := [] }
            (Ev.Error ErrName.MailboxNotFound)) := by
    simp [stepSys, ht, List.eraseIdx, Fsm.runTask, hm]
  intro id hp w hw hwid
  rw [hstep] at hw
  simp only [stepFsmOp, Fsm.emitEv, List.drop_left,
    applyEvs, List.foldl_cons, List.foldl_nil] at hw
  exact applyEv_error_rejects hp w hw hwid

/-! ## Witnesses: each theorem with hypotheses applied at concrete
inputs -/

/-- `authenticate_exact_equality` on the test environment and mailbox. -/
theorem authenticate_exact_equality_witness :
    envTest.contextGet "mydomain.com" = some ctxA ∧
    envTest.mailboxGet (some "1234") (some ctxA) = some mbA ∧
    ("notmypassword" : String) ≠ mbA.password ∧
    (runFrom envTest false
        (runSteps envTest false
          [Step.callInit "mydomain.com" (some "1234"), Step.runDispatch,
           Step.deliverTask 0, Step.deliverTask 0])
        [Step.callAuthenticate "notmypassword", Step.runDispatch]).fsm.state
      = FsmState.authenticating :=
  ⟨by decide, by decide, by decide,
   (authenticate_exact_equality envTest "mydomain.com" "1234" "notmypassword"
      ctxA mbA (by decide) (by decide) (by decide)).1⟩

/-- `hangup_rejects_pending_requests` on a session with a pending
`authenticate` future. -/
theorem hangup_rejects_pending_requests_witness :
    sysAuthPending.fsm.hangupSubscribed = true ∧
    waiterHas (stepSys envTest false sysAuthPending Step.hangup) 1
      (some (Outcome.rejected ErrName.ChannelHungup)) :=
  ⟨by decide,
   (hangup_rejects_pending_requests envTest sysAuthPending (by decide)).1
     1 (by decide)⟩

/-- `stale_lookup_continuation_unchecked` on the two hung-up sessions
with pending continuations. -/
theorem stale_lookup_continuation_unchecked_witness :
    sysHungupMidInit.fsm.state = FsmState.done ∧
    sysHungupMidInit.fsm.tasks = [Task.initMb (some mbA)] ∧
    sysHungupMidInit.fsm.queue = [] ∧
    sysHungupMidInitNoMb.fsm.state = FsmState.done ∧
    sysHungupMidInitNoMb.fsm.tasks = [Task.initMb none] ∧
    sysHungupMidInitNoMb.fsm.queue = [] ∧
    (stepSys envTest false sysHungupMidInit (Step.deliverTask 0)).fsm.state
      = FsmState.authenticating :=
  ⟨by decide, by decide, by decide, by decide, by decide, by decide,
   (stale_lookup_continuation_unchecked envTest sysHungupMidInit
      sysHungupMidInitNoMb mbA (by decide) (by decide) (by decide)
      (by decide) (by decide) (by decide)).1⟩

/-- `init_mailbox_not_found_then_setMailbox` on the test environment. -/
theorem init_mailbox_not_found_then_setMailbox_witness :
    envTest.contextGet "mydomain.com" = some ctxA ∧
    envTest.mailboxGet (some "") (some ctxA) = none ∧
    envTest.mailboxGet (some "1234") (some ctxA) = some mbA ∧
    (runSteps envTest false
        [Step.callInit "mydomain.com" (some ""), Step.runDispatch,
         Step.deliverTask 0, Step.deliverTask 0]).fsm.state
      = FsmState.unknownMailbox :=
  ⟨by decide, by decide, by decide,
   (init_mailbox_not_found_then_setMailbox envTest "mydomain.com" "" "1234" ""
      ctxA mbA (by decide) (by decide) (by decide) (by decide)).1⟩

/-- `facade_at_most_once_spent_never` applied: the resolved `init` future
of the full run keeps its outcome across a further hang-up. -/
theorem facade_at_most_once_spent_never_witness :
    idsBounded sysFullRun ∧ 0 < sysFullRun.nextId ∧
    waiterHas sysFullRun 0 (some (Outcome.resolvedMailbox mbA)) ∧
    waiterHas (runFrom envTest false sysFullRun [Step.hangup]) 0
      (some (Outcome.resolvedMailbox mbA)) :=
  ⟨by decide, by decide, by decide,
   facade_at_most_once_spent_never.1 envTest false sysFullRun [Step.hangup] 0
     (Outcome.resolvedMailbox mbA) (by decide) (by decide) (by decide)⟩

/-- `deferred_inputs_replayed_in_order` on the test environment. -/
theorem deferred_inputs_replayed_in_order_witness :
    envTest.contextGet "mydomain.com" = some ctxA ∧
    envTest.mailboxGet (some "1234") (some ctxA) = some mbA ∧
    mbA.password = "mypassword" ∧
    envTest.mailboxGet (some "") (some ctxA) = none ∧
    ("notmypassword" : String) ≠ "mypassword" ∧
    (runSteps envTest false
        [Step.callInit "mydomain.com" (some "1234"),
         Step.callAuthenticate "mypassword", Step.runDispatch,
         Step.runDispatch, Step.deliverTask 0, Step.deliverTask 0]).fsm.handledLog
      = [(FsmState.init, Input.init "mydomain.com" "1234"),
         (FsmState.init, Input.authenticate "mypassword"),
         (FsmState.authenticating, Input.authenticate "mypassword")] :=
  ⟨by decide, by decide, by decide, by decide, by decide,
   (deferred_inputs_replayed_in_order envTest "mydomain.com" "1234" "" "1234"
      "mypassword" "notmypassword" ctxA mbA mbA (by decide) (by decide)
      (by decide) (by decide) (by decide) (by decide)).1⟩

/-- `skip_auth_password_independent` at two different passwords and two
environments whose stored passwords differ. -/
theorem skip_auth_password_independent_witness :
    sysStart.dispatches = [] ∧ idsBounded sysStart ∧
    runFrom envTest true sysStart [Step.callAuthenticate "a", Step.runDispatch]
      = runFrom envOther true sysStart [Step.callAuthenticate "b", Step.runDispatch] :=
  ⟨rfl, by decide,
   (skip_auth_password_independent envTest envOther sysStart "a" "b"
      rfl (by decide)).1⟩

/-- `shared_error_rejects_all_pending` on a session with a pending
`setMailbox` future and a pending `authenticate` future: the one failing
lookup rejects both. -/
theorem shared_error_rejects_all_pending_witness :
    sysTwoPending.fsm.tasks = [Task.setMb (some "") (some ctxA)] ∧
    envTest.mailboxGet (some "") (some ctxA) = none ∧
    waiterHas sysTwoPending 1 none ∧
    waiterHas sysTwoPending 2 none ∧
    waiterHas (stepSys envTest false sysTwoPending (Step.deliverTask 0)) 1
      (some (Outcome.rejected ErrName.MailboxNotFound)) ∧
    waiterHas (stepSys envTest false sysTwoPending (Step.deliverTask 0)) 2
      (some (Outcome.rejected ErrName.MailboxNotFound)) :=
  ⟨by decide, by decide, by decide, by decide,
   shared_error_rejects_all_pending envTest sysTwoPending (some "") (some ctxA)
     (by decide) (by decide) 1 (by decide),
   shared_error_rejects_all_pending envTest sysTwoPending (some "") (some ctxA)
     (by decide) (by decide) 2 (by decide)⟩

end VoicemailAuth
